import Mathlib

/-!
Verification of the LST-workflow value-extraction engine
(`src/app/get_values.py`, `src/app/asset_data.py`, `src/app/stac_parsing.py`).

The Python code is shallowly embedded: Python runtime values that flow
through the extraction pipeline become the inductive type `PyVal`
(`None`, `int`, `float` — idealised as exact rationals —, the IEEE `nan`
payload, and `str`); raised exceptions become `Except PyErr`; raster and
network I/O, which the code performs through `rasterio`/`xarray`, is
abstracted into outcome parameters describing what each I/O call did.
-/

namespace LstWorkflow

/-- A Python runtime value as it can appear in the extraction pipeline:
`None`, an `int`, a `float` (idealised here as an exact rational; the
claims under study never depend on binary-float rounding artefacts),
the floating NaN payload, or a `str` (the `"DataError"` sentinel and
expression-string constants). -/
inductive PyVal where
  | none
  | int (z : ℤ)
  | float (q : ℚ)
  | nan
  | str (s : String)
deriving DecidableEq, Repr

/-- The Python exception kinds the embedded fragment can raise. -/
inductive PyErr where
  | keyError
  | typeError
  | valueError
  | zeroDivisionError
  | attributeError
  | otherException
  | notModelled
deriving DecidableEq, Repr

/-- Bitwise XOR on Python integers (two's-complement semantics),
realising `operator.xor`. -/
def intXor : ℤ → ℤ → ℤ
  | Int.ofNat a, Int.ofNat b => Int.ofNat (Nat.xor a b)
  | Int.ofNat a, Int.negSucc b => Int.negSucc (Nat.xor a b)
  | Int.negSucc a, Int.ofNat b => Int.negSucc (Nat.xor a b)
  | Int.negSucc a, Int.negSucc b => Int.ofNat (Nat.xor a b)

/-- `operator.add`: numeric addition (int-preserving), NaN propagation,
string concatenation; anything else raises `TypeError`. -/
def pyAdd : PyVal → PyVal → Except PyErr PyVal
  | .int a, .int b => .ok (.int (a + b))
  | .int a, .float b => .ok (.float ((a : ℚ) + b))
  | .float a, .int b => .ok (.float (a + (b : ℚ)))
  | .float a, .float b => .ok (.float (a + b))
  | .nan, .int _ | .nan, .float _ | .int _, .nan | .float _, .nan | .nan, .nan => .ok .nan
  | .str a, .str b => .ok (.str (a ++ b))
  | _, _ => .error .typeError

/-- `operator.sub`: numeric subtraction with NaN propagation; strings
and `None` raise `TypeError`. -/
def pySub : PyVal → PyVal → Except PyErr PyVal
  | .int a, .int b => .ok (.int (a - b))
  | .int a, .float b => .ok (.float ((a : ℚ) - b))
  | .float a, .int b => .ok (.float (a - (b : ℚ)))
  | .float a, .float b => .ok (.float (a - b))
  | .nan, .int _ | .nan, .float _ | .int _, .nan | .float _, .nan | .nan, .nan => .ok .nan
  | _, _ => .error .typeError

/-- `operator.mul`: numeric multiplication, NaN propagation, and
Python's string repetition `str * int`. -/
def pyMul : PyVal → PyVal → Except PyErr PyVal
  | .int a, .int b => .ok (.int (a * b))
  | .int a, .float b => .ok (.float ((a : ℚ) * b))
  | .float a, .int b => .ok (.float (a * (b : ℚ)))
  | .float a, .float b => .ok (.float (a * b))
  | .nan, .int _ | .nan, .float _ | .int _, .nan | .float _, .nan | .nan, .nan => .ok .nan
  | .str s, .int n => .ok (.str (String.join (List.replicate n.toNat s)))
  | .int n, .str s => .ok (.str (String.join (List.replicate n.toNat s)))
  | _, _ => .error .typeError

/-- `operator.truediv`: true division (always float-valued on numbers),
`ZeroDivisionError` on a zero denominator, NaN propagation. -/
def pyDiv (a b : PyVal) : Except PyErr PyVal :=
  match a, b with
  | .int x, .int y => if y = 0 then .error .zeroDivisionError else .ok (.float ((x : ℚ) / (y : ℚ)))
  | .int x, .float y => if y = 0 then .error .zeroDivisionError else .ok (.float ((x : ℚ) / y))
  | .float x, .int y => if y = 0 then .error .zeroDivisionError else .ok (.float (x / (y : ℚ)))
  | .float x, .float y => if y = 0 then .error .zeroDivisionError else .ok (.float (x / y))
  | .nan, .int y => if y = 0 then .error .zeroDivisionError else .ok .nan
  | .nan, .float y => if y = 0 then .error .zeroDivisionError else .ok .nan
  | .int _, .nan | .float _, .nan | .nan, .nan => .ok .nan
  | _, _ => .error .typeError

/-- `operator.pow`. Integer exponents are modelled exactly; a
fractional exponent would produce an irrational real, which the
rational idealisation cannot represent, so it is mapped to the
out-of-model marker `notModelled` (no claim exercises it).
NaN operands propagate. -/
def pyPow (a b : PyVal) : Except PyErr PyVal :=
  match a, b with
  | .int x, .int y =>
      if 0 ≤ y then .ok (.int (x ^ y.toNat))
      else if x = 0 then .error .zeroDivisionError else .ok (.float ((x : ℚ) ^ y))
  | .float x, .int y =>
      if x = 0 ∧ y < 0 then .error .zeroDivisionError else .ok (.float (x ^ y))
  | .int x, .float y =>
      if y.den = 1 then
        if 0 ≤ y.num then .ok (.float ((x : ℚ) ^ y.num))
        else if x = 0 then .error .zeroDivisionError else .ok (.float ((x : ℚ) ^ y.num))
      else .error .notModelled
  | .float x, .float y =>
      if y.den = 1 then
        if x = 0 ∧ y.num < 0 then .error .zeroDivisionError else .ok (.float (x ^ y.num))
      else .error .notModelled
  | .nan, .int _ | .nan, .float _ | .int _, .nan | .float _, .nan | .nan, .nan => .ok .nan
  | _, _ => .error .typeError

/-- `operator.xor`: defined on Python integers only. -/
def pyXor : PyVal → PyVal → Except PyErr PyVal
  | .int a, .int b => .ok (.int (intXor a b))
  | _, _ => .error .typeError

/-- `operator.neg` (unary minus). -/
def pyNeg : PyVal → Except PyErr PyVal
  | .int a => .ok (.int (-a))
  | .float q => .ok (.float (-q))
  | .nan => .ok .nan
  | _ => .error .typeError

/-- Round-half-to-even on an exact rational, the rounding rule of
Python's builtin `round`. -/
def roundHalfToEven (q : ℚ) : ℤ :=
  let f : ℤ := ⌊q⌋
  let r : ℚ := q - (f : ℚ)
  if r < 1/2 then f
  else if 1/2 < r then f + 1
  else if f % 2 = 0 then f else f + 1

/-- The builtin `round(*args)` as invoked by the evaluator's single
whitelisted call: `round(number)` yields an `int`, `round(number,
ndigits)` keeps the argument's type; a wrong arity or a non-numeric
argument raises `TypeError`, `round(nan)` raises `ValueError`. -/
def pyRoundCall : List PyVal → Except PyErr PyVal
  | [v] =>
    match v with
    | .int z => .ok (.int z)
    | .float q => .ok (.int (roundHalfToEven q))
    | .nan => .error .valueError
    | _ => .error .typeError
  | [v, n] =>
    match v, n with
    | .int z, .int m =>
        if 0 ≤ m then .ok (.int z)
        else .ok (.int (roundHalfToEven ((z : ℚ) * (10 : ℚ) ^ m) * (10 : ℤ) ^ (-m).toNat))
    | .float q, .int m => .ok (.float ((roundHalfToEven (q * (10 : ℚ) ^ m) : ℚ) / (10 : ℚ) ^ m))
    | .nan, .int _ => .ok .nan
    | _, _ => .error .typeError
  | _ => .error .typeError

/-- Binary-operator nodes of the Python `ast` module that can occur in
a parsed arithmetic expression. `mod` and `floorDiv` stand for the
operators (`%`, `//`) that the evaluator's `operators` table does not
list. -/
inductive BinOpKind where
  | add
  | sub
  | mult
  | div
  | pow
  | bitXor
  | mod
  | floorDiv
deriving DecidableEq, Repr

/-- Unary-operator nodes: `uAdd` (`+e`) and `notOp` (`not e`) are
absent from the `operators` table. -/
inductive UnaryOpKind where
  | uSub
  | uAdd
  | notOp
deriving DecidableEq, Repr

/-- The fragment of the Python expression AST (`ast.parse(expr,
mode="eval").body`) relevant to `eval_expr`: constants, binary and
unary operations, names, calls and attribute access. -/
inductive ExprAst where
  | constant (v : PyVal)
  | binOp (op : BinOpKind) (l r : ExprAst)
  | unaryOp (op : UnaryOpKind) (e : ExprAst)
  | name (id : String)
  | call (f : ExprAst) (args : List ExprAst)
  | attributeAccess (obj : ExprAst) (attrName : String)
deriving Repr

/-- The `operators` dictionary of `eval_expr` (get_values.py lines
297-305), keyed by binary-operator node type: a missing key is a
`KeyError` at evaluation time. -/
def binOps : BinOpKind → Option (PyVal → PyVal → Except PyErr PyVal)
  | .add => some pyAdd
  | .sub => some pySub
  | .mult => some pyMul
  | .div => some pyDiv
  | .pow => some pyPow
  | .bitXor => some pyXor
  | .mod => Option.none
  | .floorDiv => Option.none

/-- The unary entries of the same `operators` dictionary: only
`ast.USub` is present. -/
def unaryOps : UnaryOpKind → Option (PyVal → Except PyErr PyVal)
  | .uSub => some pyNeg
  | .uAdd => Option.none
  | .notOp => Option.none

mutual

/-- The recursive `_eval` of `eval_expr` (get_values.py lines 307-327):
constants evaluate to themselves; binary/unary operators are looked up
in the `operators` table (a missing entry raises `KeyError` before the
operands are visited); the name `x` yields the bound value and any
other name raises `ValueError`; a call is allowed only when its
function is literally the name `round` (its arguments are evaluated
and passed to the builtin), every other call and every remaining node
shape — attribute access in particular — raises `TypeError` with its
sub-expressions unevaluated. -/
def evalAst (value : PyVal) : ExprAst → Except PyErr PyVal
  | .constant v => .ok v
  | .binOp op l r =>
    match binOps op with
    | Option.none => .error .keyError
    | some f => do
        let a ← evalAst value l
        let b ← evalAst value r
        f a b
  | .unaryOp op e =>
    match unaryOps op with
    | Option.none => .error .keyError
    | some f => do
        let a ← evalAst value e
        f a
  | .name id => if id = "x" then .ok value else .error .valueError
  | .call f args =>
    match f with
    | .name fid =>
        if fid = "round" then do
          let vs ← evalArgs value args
          pyRoundCall vs
        else .error .typeError
    | _ => .error .typeError
  | .attributeAccess _ _ => .error .typeError

/-- Left-to-right evaluation of a call's argument list
(`[_eval(arg) for arg in node.args]`). -/
def evalArgs (value : PyVal) : List ExprAst → Except PyErr (List PyVal)
  | [] => .ok []
  | a :: rest => do
      let v ← evalAst value a
      let vs ← evalArgs value rest
      .ok (v :: vs)

end

/-- `eval_expr(expr, value)` (get_values.py lines 293-330), taking the
already-parsed AST of the expression string. -/
def eval_expr (expr : ExprAst) (value : PyVal) : Except PyErr PyVal :=
  evalAst value expr

/-- `str(v) == "nan"`: true exactly for the NaN float (whose `str` is
`"nan"`) and for the literal string `"nan"`; `None` prints `"None"`
and finite numbers never print `"nan"`. -/
def pyStrIsNan : PyVal → Bool
  | .nan => true
  | .str s => s == "nan"
  | _ => false

/-- The normalisation `None if str(v) == "nan" else v` applied at the
end of each per-kind extraction function. -/
def normalizeNan (v : PyVal) : PyVal :=
  if pyStrIsNan v then .none else v

/-- Outcome of the guarded point-sampling block of
`get_values_points` when a dataset object is present: either one of
the two index-name branches ran `sel(...).values.tolist()` and
produced a value list, or the grid exposed unsupported index names
(the `else` branch, whose `self.assets.x` access itself raises and is
caught by the surrounding handler), or some exception was raised
inside the `try`. -/
inductive PointsSampleOutcome where
  | ok (vs : List PyVal)
  | unsupportedIndexes
  | raises
deriving Repr

/-- Outcome of the per-geometry `clip_box`/`clip`/`mean` block for one
polygon or line row: a computed mean value, an
`aiohttp.ClientResponseError` from remote access, a
`rioxarray NoDataInBounds`, or any other exception. -/
inductive ClipOutcome where
  | ok (v : PyVal)
  | clientResponseError
  | noDataInBounds
  | otherError
deriving DecidableEq, Repr

/-- The environment one `ValueExtractor` call runs in: whether
`load_dataset` returned a dataset object or `None` (get_values.py
lines 270-279 catch every exception and return `None`), the number of
points in the asset set (`len(self.assets.data.x)`), and the abstract
I/O outcomes — one `PointsSampleOutcome` for the single vectorised
point lookup, one `ClipOutcome` per polygon/line feature row, so
`clipOutcomes.length` is the number of geometries iterated by
`self.assets.data.iterrows()`. -/
structure World where
  dataset : Option Unit
  nPoints : ℕ
  pointsOutcome : PointsSampleOutcome
  clipOutcomes : List ClipOutcome

/-- `ValueExtractor.get_values_points` (get_values.py lines 193-220).
With `dataset = None` the very first attribute access
`self.dataset._indexes` raises and the `except Exception` handler
fills `[None] * len(self.assets.data.x)`; the unsupported-index
branch reaches the same handler through its own `AttributeError`
(line 215 reads the nonexistent `self.assets.x`); any other sampling
exception is caught the same way. The final comprehension normalises
NaN to `None`. -/
def get_values_points (w : World) : List PyVal :=
  let values : List PyVal :=
    match w.dataset with
    | Option.none => List.replicate w.nPoints .none
    | some _ =>
      match w.pointsOutcome with
      | .ok vs => vs
      | .unsupportedIndexes => List.replicate w.nPoints .none
      | .raises => List.replicate w.nPoints .none
  values.map normalizeNan

/-- The per-row body of `get_values_polygons` (get_values.py lines
225-245): with `dataset = None` the `self.dataset.rio` access raises
`AttributeError`, caught by the generic `except Exception` → `None`;
otherwise `ClientResponseError` appends the `"DataError"` sentinel,
`NoDataInBounds` appends `None`, any other exception appends `None`. -/
def polygonRowResult (dataset : Option Unit) (o : ClipOutcome) : PyVal :=
  match dataset with
  | Option.none => .none
  | some _ =>
    match o with
    | .ok v => v
    | .clientResponseError => .str "DataError"
    | .noDataInBounds => .none
    | .otherError => .none

/-- `ValueExtractor.get_values_polygons` (get_values.py lines 222-246):
one result per feature row, each computed independently, then NaN
normalisation. -/
def get_values_polygons (w : World) : List PyVal :=
  (w.clipOutcomes.map (polygonRowResult w.dataset)).map normalizeNan

/-- The row loop of `get_values_lines` (get_values.py lines 251-266).
Unlike the polygon loop it has handlers only for `NoDataInBounds`
(`None`) and `ClientResponseError` (`"DataError"`): any other
exception — in particular the `AttributeError` from
`self.dataset.rio` when the dataset failed to load — propagates out
of the loop and aborts the remaining rows. -/
def linesLoop : Option Unit → List ClipOutcome → Except PyErr (List PyVal)
  | _, [] => .ok []
  | Option.none, _ :: _ => .error .attributeError
  | some g, o :: rest =>
    match o with
    | .ok v => do
        let r ← linesLoop (some g) rest
        .ok (v :: r)
    | .noDataInBounds => do
        let r ← linesLoop (some g) rest
        .ok (.none :: r)
    | .clientResponseError => do
        let r ← linesLoop (some g) rest
        .ok (.str "DataError" :: r)
    | .otherError => .error .otherException

/-- `ValueExtractor.get_values_lines` (get_values.py lines 248-268):
the row loop followed by NaN normalisation (which only runs if the
loop completed without an unhandled exception). -/
def get_values_lines (w : World) : Except PyErr (List PyVal) := do
  let results ← linesLoop w.dataset w.clipOutcomes
  .ok (results.map normalizeNan)

/-- The `geometry_type_to_function` dispatch table of `ValueExtractor`
(get_values.py lines 186-190): a runtime string lookup with exactly
the keys `"Point"`, `"Polygon"`, `"LineString"`; any other geometry
type — `"Mixed"` in particular — is a missing key, i.e. a `KeyError`
when `get_values` subscripts the table. -/
def geometry_type_to_function (geometryType : String) : Option (World → Except PyErr (List PyVal)) :=
  if geometryType = "Point" then some (fun w => .ok (get_values_points w))
  else if geometryType = "Polygon" then some (fun w => .ok (get_values_polygons w))
  else if geometryType = "LineString" then some get_values_lines
  else Option.none

/-- The post-processing comprehension of `ValueExtractor.get_values`
(get_values.py lines 286-289): `eval_expr(self.expression, value) if
value is not None else None`, element by element, left to right, with
the first evaluator exception propagating.  Note the only exemption is
`None`: string values such as the `"DataError"` sentinel are fed to
the evaluator. -/
def postprocessList (e : ExprAst) : List PyVal → Except PyErr (List PyVal)
  | [] => .ok []
  | v :: rest => do
      let v' ← if v = PyVal.none then .ok PyVal.none else eval_expr e v
      let rest' ← postprocessList e rest
      .ok (v' :: rest')

/-- `ValueExtractor.get_values` (get_values.py lines 281-290): look the
geometry type up in the dispatch table (`KeyError` when absent), run
the per-kind extraction, then — only `if self.expression:` is truthy,
modelled as `some` — apply the post-processing comprehension. -/
def ValueExtractor.get_values (geometryType : String) (expression : Option ExprAst)
    (w : World) : Except PyErr (List PyVal) :=
  match geometry_type_to_function geometryType with
  | Option.none => .error .keyError
  | some method => do
      let result ← method w
      match expression with
      | Option.none => .ok result
      | some e => postprocessList e result

/-- `AssetData.get_geometry_types` (asset_data.py lines 223-231),
applied to the per-feature geometry `type` fields collected by
`_list_geometry_types` (features without a type contribute nothing,
hence `Option` and `filterMap`): an empty list raises
`ValueError("No geometry types found")`, a list whose entries all
equal the first yields that type, and the first divergent entry
yields `"Mixed"`. -/
def get_geometry_types (features : List (Option String)) : Except PyErr String :=
  match features.filterMap id with
  | [] => .error .valueError
  | first :: rest => if rest.all (fun t => t = first) then .ok first else .ok "Mixed"

/-- Split a character list at every occurrence of the separator
(`"ab.cd".split "."`-style; always at least one, possibly empty,
segment). -/
def splitOnChar (c : Char) : List Char → List (List Char)
  | [] => [[]]
  | ch :: rest =>
    let r := splitOnChar c rest
    if ch = c then [] :: r
    else
      match r with
      | [] => [[ch]]
      | h :: t => (ch :: h) :: t

/-- The final path component of a URL (`pathlib.PurePath(url).name`). -/
def pathName (url : String) : List Char :=
  (splitOnChar (Char.ofNat 47) url.toList).getLastD []

/-- `pathlib.Path(url).suffix`: the last dotted extension of the final
component, including the dot; empty when the name has no dot, is a
bare hidden file such as `.bashrc`, or ends in a dot. -/
def pathSuffix (url : String) : String :=
  match splitOnChar (Char.ofNat 46) (pathName url) with
  | [] => ""
  | [_] => ""
  | first :: rest =>
    let ext := rest.getLastD []
    if first = [] ∧ rest.length = 1 then ""
    else if ext = [] then ""
    else String.mk ('.' :: ext)

/-- `pathlib.Path(url).stem`: the final component with its suffix
removed. -/
def pathStem (url : String) : String :=
  let name := pathName url
  let sfx := pathSuffix url
  String.mk (name.take (name.length - sfx.length))

/-- `Path(url).stem.replace(".", "-")`: the replacement pattern is a
single character, so it is a character map. -/
def sourceFileName (url : String) : String :=
  String.mk ((pathStem url).toList.map (fun ch => if ch = '.' then '-' else ch))

/-- The `DatasetDetails` dataclass (stac_parsing.py lines 16-29).
`datetime` and `unit` come from STAC item properties via `.get(...)`,
hence may be absent. -/
structure DatasetDetails where
  url : String
  datetime : Option String
  source_file_name : String
  unit : Option String
deriving DecidableEq, Repr

/-- The part of a fetched STAC item that `get_asset_details` reads:
the asset `href`s in declaration order (Python dictionaries iterate in
insertion order) and the `datetime`/`unit` properties. -/
structure StacItemModel where
  assets : List String
  datetime : Option String
  unit : Option String
deriving DecidableEq, Repr

/-- The asset-extension allowlist of `StacItem.get_asset_details`
(stac_parsing.py line 86): `file_types = [".tif", ".tiff", ".json"]`. -/
def file_types : List String := [".tif", ".tiff", ".json"]

/-- `StacItem.get_asset_details` (stac_parsing.py lines 71-95): scan
the declared assets in order, return a `DatasetDetails` for the first
asset whose suffix is in `file_types`; when no asset matches, the
loop falls through and the method implicitly returns `None`. -/
def get_asset_details (it : StacItemModel) : Option DatasetDetails :=
  (it.assets.find? (fun url => file_types.contains (pathSuffix url))).map
    (fun url => ⟨url, it.datetime, sourceFileName url, it.unit⟩)

/-- `get_asset_data_list` (stac_parsing.py lines 98-116): one
`StacItem(url).asset_details` per input URL, appended unconditionally
— an item with no matching asset contributes `None` to the list
rather than being dropped. -/
def get_asset_data_list (items : List StacItemModel) : List (Option DatasetDetails) :=
  items.map get_asset_details

/-- Python's `<` as called by `min`/`max` on the values that can sit
in `returned_values`: numbers compare numerically, strings compare
lexicographically, a string against a number raises `TypeError`
(exactly what `min([2, "DataError"])` hits), and any comparison with
NaN is `False`. -/
def pyLtE : PyVal → PyVal → Except PyErr Bool
  | .int a, .int b => .ok (decide (a < b))
  | .int a, .float b => .ok (decide ((a : ℚ) < b))
  | .float a, .int b => .ok (decide (a < (b : ℚ)))
  | .float a, .float b => .ok (decide (a < b))
  | .nan, .int _ | .nan, .float _ | .int _, .nan | .float _, .nan | .nan, .nan => .ok false
  | .str a, .str b => .ok (decide (a < b))
  | _, _ => .error .typeError

/-- The iteration of Python's builtin `min`: keep the current best,
replacing it whenever the next element compares `<` to it; the
comparison's `TypeError` propagates. -/
def pyIterMin : PyVal → List PyVal → Except PyErr PyVal
  | cur, [] => .ok cur
  | cur, x :: rest => do
      let lt ← pyLtE x cur
      pyIterMin (if lt then x else cur) rest

/-- The iteration of Python's builtin `max` (`x > cur` is `cur < x`). -/
def pyIterMax : PyVal → List PyVal → Except PyErr PyVal
  | cur, [] => .ok cur
  | cur, x :: rest => do
      let gt ← pyLtE cur x
      pyIterMax (if gt then x else cur) rest

/-- `min(values)`: `ValueError` on an empty list (the code guards with
`if values:`), otherwise the fold from the first element. -/
def pyListMinE : List PyVal → Except PyErr PyVal
  | [] => .error .valueError
  | h :: t => pyIterMin h t

/-- `max(values)`, same shape as `pyListMinE`. -/
def pyListMaxE : List PyVal → Except PyErr PyVal
  | [] => .error .valueError
  | h :: t => pyIterMax h t

/-- The builtin `float(...)` applied to a summary value: numbers
convert, a string raises `ValueError` — the only string value the
pipeline ever stores is the `"DataError"` sentinel, which does not
parse as a number (numeric-literal strings never reach this code and
are out of the model, like the unreachable NaN, which normalisation
strips before anything is written). -/
def pyFloatOfVal : PyVal → Except PyErr ℚ
  | .int z => .ok (z : ℚ)
  | .float q => .ok q
  | .str _ => .error .valueError
  | .nan => .error .notModelled
  | .none => .error .typeError

/-- The coercion `np.mean`/`np.std` perform on each element of their
argument: numeric values pass, anything else (a string in the mixed
`returned_values` case) raises `TypeError`. -/
def pyNumericVal : PyVal → Except PyErr ℚ
  | .int z => .ok (z : ℚ)
  | .float q => .ok q
  | .nan => .error .notModelled
  | _ => .error .typeError

/-- Coerce a whole value list to numbers, left to right, for the
`np.mean`/`np.std` reductions. -/
def numListOfVals : List PyVal → Except PyErr (List ℚ)
  | [] => .ok []
  | v :: rest => do
      let q ← pyNumericVal v
      let qs ← numListOfVals rest
      .ok (q :: qs)

/-- `np.mean` on a numeric list. -/
def npMean (l : List ℚ) : ℚ := l.sum / l.length

/-- The population variance underlying `np.std`. -/
def npVariance (l : List ℚ) : ℚ :=
  (l.map (fun v => (v - npMean l) ^ 2)).sum / l.length

/-- `np.std`: the square root of the population variance. -/
noncomputable def npStd (l : List ℚ) : ℝ := Real.sqrt (npVariance l)

/-- One synthetic entry written into `returned_values` by
`add_summary_statistics`: `{"value": ..., "type": "statistic",
"key": stat_name}`. -/
structure StatEntry where
  value : Option ℝ
  type : String
  key : String

/-- The four tagged entries the loop at get_values.py lines 165-170
writes into `returned_values`, in the order of the `stats` dict. -/
def statEntries (minv maxv meanv stdv : Option ℝ) : List (String × StatEntry) :=
  [("MINIMUM", ⟨minv, "statistic", "MINIMUM"⟩),
   ("MAXIMUM", ⟨maxv, "statistic", "MAXIMUM"⟩),
   ("MEAN", ⟨meanv, "statistic", "MEAN"⟩),
   ("STANDARD_DEVIATION", ⟨stdv, "statistic", "STANDARD_DEVIATION"⟩)]

/-- The per-feature body of `DatasetsValueExtractor.add_summary_statistics`
(get_values.py lines 141-170): collect the non-null `value` fields of
the feature's `returned_values` entries (these are `PyVal`s — numbers,
or the `"DataError"` string sentinel a polygon/line clip failure
stores); if any exist, evaluate the `stats` dict entries in order —
`float(min(values))`, `float(max(values))`, `float(np.mean(values))`,
`float(np.std(values))` — where `min`/`max` raise `TypeError` on a
string/number comparison and `float` raises `ValueError` on the
sentinel string; otherwise set all four to `None`.  On success the
four entries are written, tagged `type: "statistic"`. -/
noncomputable def add_summary_statistics_feature (returned_values : List (String × PyVal)) :
    Except PyErr (List (String × StatEntry)) :=
  let values := (returned_values.map Prod.snd).filter (fun v => v ≠ PyVal.none)
  if values ≠ [] then do
    let minv ← pyListMinE values
    let minq ← pyFloatOfVal minv
    let maxv ← pyListMaxE values
    let maxq ← pyFloatOfVal maxv
    let qs ← numListOfVals values
    .ok (statEntries (some (minq : ℝ)) (some (maxq : ℝ))
          (some ((npMean qs : ℚ) : ℝ)) (some (npStd qs)))
  else
    .ok (statEntries Option.none Option.none Option.none Option.none)

/-- The parsed AST of the hard-coded expression string `"x-273.15"`
passed to the primary extractor in `get_min_max_values_for_dataset`
(get_values.py line 49). -/
def exprSub27315 : ExprAst :=
  .binOp .sub (.name "x") (.constant (.float (27315 / 100)))

/-- The attribute read `dataset_details.output_name` performed by
`_update_asset_properties` (get_values.py line 127).  `get_values.py`
imports `DatasetDetails` from `app.stac_parsing` (line 15), whose
dataclass has only `url`/`datetime`/`source_file_name`/`unit` — no
`output_name` — so this read raises `AttributeError`.  (A parallel
pydantic `DatasetDetails` with a timestamp-derived `output_name`
exists in `data_models.py` lines 10-61, but nothing in the wired
pipeline constructs it: `get_asset_data_list` builds the
`stac_parsing` one.) -/
def stacDetails_output_name (_ : DatasetDetails) : Except PyErr String :=
  .error .attributeError

/-- One entry `_update_asset_properties` would record for one feature
if it obtained an output name: the key `output_name + suffix` and the
per-geometry value (the constant `datetime`/`unit`/`file_name` fields
are omitted; note `dataset_details.datetime.isoformat()` at line 134
would itself raise on the string datetime the resolver stores). -/
structure WriteEntry where
  key : String
  value : PyVal
deriving Repr

/-- `_update_asset_properties` (get_values.py lines 120-139) for one
feature: reads `dataset_details.output_name` first — which raises on
the `stac_parsing.DatasetDetails` flowing through the pipeline — and
would otherwise record the keyed value. -/
def update_asset_properties (dd : DatasetDetails) (output_name_suffix : String)
    (result : PyVal) : Except PyErr WriteEntry := do
  let o ← stacDetails_output_name dd
  .ok ⟨o ++ output_name_suffix, result⟩

/-- The per-feature loop of `_update_asset_properties_caller`
(get_values.py lines 112-118): one `_update_asset_properties` call
per result, in order; the first exception propagates. -/
def writeLoop (dd : DatasetDetails) (output_name_suffix : String) :
    List PyVal → Except PyErr (List WriteEntry)
  | [] => .ok []
  | r :: rest => do
      let e ← update_asset_properties dd output_name_suffix r
      let es ← writeLoop dd output_name_suffix rest
      .ok (e :: es)

/-- The suffix adjustment of `_update_asset_properties_caller`
(get_values.py lines 110-111): every geometry kind other than
`"Point"` gets `"_average"` appended. -/
def adjust_suffix (geometryType output_name_suffix : String) : String :=
  if geometryType ≠ "Point" then output_name_suffix ++ "_average" else output_name_suffix

/-- `_update_asset_properties_caller` (get_values.py lines 107-118):
adjust the suffix, then write one entry per result. -/
def update_asset_properties_caller (geometryType : String) (dd : DatasetDetails)
    (output_name_suffix : String) (results : List PyVal) : Except PyErr (List WriteEntry) :=
  writeLoop dd (adjust_suffix geometryType output_name_suffix) results

/-- `zip(a, b, strict=True)`: raises `ValueError` when the lengths
differ. -/
def zipStrict (a b : List PyVal) : Except PyErr (List (PyVal × PyVal)) :=
  if a.length = b.length then .ok (a.zip b) else .error .valueError

/-- The comprehension body shared by the `min_values`/`max_values`
lists of `get_min_max_values_for_dataset` (get_values.py lines
58-66): `(a ∓ b) if a is not None and b is not None else None`, the
arithmetic raising if a non-`None` operand is not numeric. -/
def boundCombine (f : PyVal → PyVal → Except PyErr PyVal) :
    List (PyVal × PyVal) → Except PyErr (List PyVal)
  | [] => .ok []
  | (a, b) :: rest => do
      let v ← if a = PyVal.none ∨ b = PyVal.none then .ok PyVal.none else f a b
      let r ← boundCombine f rest
      .ok (v :: r)

/-- The observable effect of one completed
`get_min_max_values_for_dataset` call: which fixed variable pair was
extracted and the two write batches it performed. -/
structure MinMaxRun where
  primaryVariable : String
  uncertaintyVariable : String
  minusWrites : List WriteEntry
  plusWrites : List WriteEntry
deriving Repr

/-- `DatasetsValueExtractor.get_min_max_values_for_dataset`
(get_values.py lines 44-76): extract the fixed variable `"lst"`
(post-processed by `"x-273.15"`) and the fixed variable
`"lst_uncertainty"` (no expression) against the same dataset and
asset set (`wLst`/`wUnc` are the two extraction environments), zip
strictly, derive `value - uncertainty` and `value + uncertainty`
(null when either side is null), then call the writer with the
suffixes `"_minus_uncertainty"` and `"_plus_uncertainty"` — each
write raising `AttributeError` at `dataset_details.output_name` as
soon as there is a result to record. -/
def get_min_max_values_for_dataset (dd : DatasetDetails) (geometryType : String)
    (wLst wUnc : World) : Except PyErr MinMaxRun := do
  let lst_values ← ValueExtractor.get_values geometryType (some exprSub27315) wLst
  let lst_uncertainty_values ← ValueExtractor.get_values geometryType Option.none wUnc
  let pairs ← zipStrict lst_values lst_uncertainty_values
  let min_values ← boundCombine pySub pairs
  let max_values ← boundCombine pyAdd pairs
  let minWrites ← update_asset_properties_caller geometryType dd "_minus_uncertainty" min_values
  let maxWrites ← update_asset_properties_caller geometryType dd "_plus_uncertainty" max_values
  .ok ⟨"lst", "lst_uncertainty", minWrites, maxWrites⟩

/-- Is this value numeric (`int`/`float`) or `None`?  Extraction
results that went through NaN normalisation and carry no `"DataError"`
sentinel satisfy this. -/
def isNumericOrNone : PyVal → Bool
  | PyVal.none => true
  | .int _ => true
  | .float _ => true
  | _ => false

/-- NaN normalisation leaves no NaN in a list. -/
theorem nan_not_mem_map_normalizeNan (l : List PyVal) : PyVal.nan ∉ l.map normalizeNan := by
  intro hmem
  rcases List.mem_map.mp hmem with ⟨v, _, hv⟩
  by_cases h : pyStrIsNan v = true
  · simp [normalizeNan, h] at hv
  · simp [normalizeNan, h] at hv
    subst hv
    simp [pyStrIsNan] at h

/-- When no row hits an unhandled exception, the line loop completes
and produces exactly the polygon-policy value for each row. -/
theorem linesLoop_ok_of_not_mem (u : Unit) (l : List ClipOutcome)
    (h : ClipOutcome.otherError ∉ l) :
    linesLoop (some u) l = .ok (l.map (polygonRowResult (some u))) := by
  induction l with
  | nil => rfl
  | cons o rest ih =>
    have hrest : ClipOutcome.otherError ∉ rest := fun hr => h (List.mem_cons_of_mem _ hr)
    have hho : o ≠ ClipOutcome.otherError := fun ho => h (ho ▸ List.mem_cons_self _ _)
    cases o with
    | ok v =>
      simp only [linesLoop, ih hrest, List.map_cons]
      rfl
    | clientResponseError =>
      simp only [linesLoop, ih hrest, List.map_cons]
      rfl
    | noDataInBounds =>
      simp only [linesLoop, ih hrest, List.map_cons]
      rfl
    | otherError => exact absurd rfl hho

/-- A row with an unhandled exception makes the line loop abort. -/
theorem linesLoop_error_of_mem (u : Unit) (l : List ClipOutcome)
    (h : ClipOutcome.otherError ∈ l) :
    ∃ e, linesLoop (some u) l = .error e := by
  induction l with
  | nil => cases h
  | cons o rest ih =>
    cases o with
    | otherError => exact ⟨.otherException, rfl⟩
    | ok v =>
      rcases ih (by simpa using h) with ⟨e, he⟩
      refine ⟨e, ?_⟩
      simp only [linesLoop, he]
      rfl
    | clientResponseError =>
      rcases ih (by simpa using h) with ⟨e, he⟩
      refine ⟨e, ?_⟩
      simp only [linesLoop, he]
      rfl
    | noDataInBounds =>
      rcases ih (by simpa using h) with ⟨e, he⟩
      refine ⟨e, ?_⟩
      simp only [linesLoop, he]
      rfl

/-- C6: the evaluator's three specification examples.
`eval_expr("x*2+1", 3)` returns `7`; `eval_expr("round(x/3,2)", 10)`
returns `3.33` (the rational `333/100` in the exact-arithmetic
idealisation of Python floats); and `eval_expr("os.system('x')", 1)`
fails with a `TypeError` — whatever the argument list, the call node
is rejected because its function is an attribute access, so the call
is never executed. -/
theorem c6_eval_examples :
    eval_expr (.binOp .add (.binOp .mult (.name "x") (.constant (.int 2))) (.constant (.int 1)))
        (.int 3) = .ok (.int 7) ∧
    eval_expr (.call (.name "round") [.binOp .div (.name "x") (.constant (.int 3)), .constant (.int 2)])
        (.int 10) = .ok (.float (333 / 100)) ∧
    (∀ args : List ExprAst,
      eval_expr (.call (.attributeAccess (.name "os") "system") args) (.int 1) =
        .error .typeError) := by
  refine ⟨rfl, ?_, fun args => rfl⟩
  show pyRoundCall [.float (((10 : ℤ) : ℚ) / ((3 : ℤ) : ℚ)), .int 2] = .ok (.float (333 / 100))
  have harg : ((10 : ℤ) : ℚ) / ((3 : ℤ) : ℚ) * (10 : ℚ) ^ (2 : ℤ) = 1000 / 3 := by
    push_cast
    norm_num
  have hfl : roundHalfToEven (1000 / 3 : ℚ) = 333 := by
    have h333 : ⌊(1000 / 3 : ℚ)⌋ = 333 := by norm_num
    unfold roundHalfToEven
    rw [h333]
    norm_num
  simp only [pyRoundCall, harg, hfl]
  norm_num

/-- C5 counterexample: the claim says every operator outside
`{+,-,*,/,**}` is rejected, but the `operators` table of `eval_expr`
also contains `ast.BitXor` (get_values.py line 303), so the bitwise
expression `x^3` evaluates to a value (`2^3 = 1` as XOR) instead of
failing. -/
theorem c5_grammar_counterexample :
    eval_expr (.binOp .bitXor (.name "x") (.constant (.int 3))) (.int 2) = .ok (.int 1) := by
  rfl

/-- C10: `ValueExtractor.get_values` post-processing maps null to
null and feeds every non-null element — the `"DataError"` string
sentinel included, since the comprehension's only guard is `is not
None` — into the arithmetic evaluator.  Concretely, for a polygon
whose clip hit a remote-access failure: without an expression the
sentinel passes through, while with the bounded-mode expression
`"x-273.15"` the sentinel reaches `operator.sub` and the call raises
`TypeError` instead of the sentinel passing through unchanged. -/
theorem c10_dataerror_postprocess :
    (∀ e : ExprAst,
      postprocessList e [PyVal.none, PyVal.str "DataError"] =
        (eval_expr e (PyVal.str "DataError")).bind (fun b => .ok [PyVal.none, b])) ∧
    ValueExtractor.get_values "Polygon" (some exprSub27315)
        ⟨some (), 0, .raises, [.clientResponseError]⟩ = .error .typeError ∧
    ValueExtractor.get_values "Polygon" Option.none
        ⟨some (), 0, .raises, [.clientResponseError]⟩ = .ok [.str "DataError"] ∧
    ValueExtractor.get_values "Polygon" (some exprSub27315)
        ⟨some (), 0, .raises, [.noDataInBounds]⟩ = .ok [.none] := by
  refine ⟨fun e => ?_, rfl, rfl, rfl⟩
  cases h : eval_expr e (PyVal.str "DataError") with
  | error err =>
    simp only [postprocessList, h]
    rfl
  | ok b =>
    simp only [postprocessList, h]
    rfl

/-- C2: a feature collection holding two features with differing
geometry types is classified `"Mixed"` by
`AssetData.get_geometry_types`, and `ValueExtractor.get_values` on a
`"Mixed"` set fails — the dispatch-table lookup raises (a `KeyError`,
the fatal refusal the spec's taxonomy names ValidationError) — before
any per-kind value extraction runs: the outcome is this error
whatever the dataset state, the sampling outcomes and the expression,
so no extraction result is ever produced or consulted. -/
theorem c2_mixed_refusal :
    (∀ (features : List (Option String)) (a b : String),
        some a ∈ features → some b ∈ features → a ≠ b →
        get_geometry_types features = .ok "Mixed") ∧
    (∀ (expression : Option ExprAst) (w : World),
        ValueExtractor.get_values "Mixed" expression w = .error .keyError) := by
  constructor
  · intro features a b ha hb hab
    have ha' : a ∈ features.filterMap id := List.mem_filterMap.mpr ⟨some a, ha, rfl⟩
    have hb' : b ∈ features.filterMap id := List.mem_filterMap.mpr ⟨some b, hb, rfl⟩
    unfold get_geometry_types
    cases hfm : features.filterMap id with
    | nil => rw [hfm] at ha'; cases ha'
    | cons first rest =>
      rw [hfm] at ha' hb'
      have hall : ¬ rest.all (fun t => t = first) = true := by
        intro hall
        have hmem : ∀ x ∈ first :: rest, x = first := by
          intro x hx
          rcases List.mem_cons.mp hx with h | h
          · exact h
          · simpa using List.all_eq_true.mp hall x h
        exact hab ((hmem a ha').trans (hmem b hb').symm)
      simp [hall]
  · intro expression w
    rfl

/-- C4: the point extractor never raises — it is a total function of
its environment — and every failure path (dataset failed to load,
unsupported index names, any sampling exception) degrades to an
all-null list sized to the point count; NaN raster outputs are
normalised away, so `nan` never occurs in a result, for any
environment. -/
theorem c4_points_degrade :
    (∀ (n : ℕ) (po : PointsSampleOutcome) (co : List ClipOutcome),
        get_values_points ⟨Option.none, n, po, co⟩ = List.replicate n PyVal.none) ∧
    (∀ (n : ℕ) (co : List ClipOutcome),
        get_values_points ⟨some (), n, .raises, co⟩ = List.replicate n PyVal.none) ∧
    (∀ (n : ℕ) (co : List ClipOutcome),
        get_values_points ⟨some (), n, .unsupportedIndexes, co⟩ = List.replicate n PyVal.none) ∧
    (∀ w : World, ValueExtractor.get_values "Point" Option.none w = .ok (get_values_points w)) ∧
    (∀ w : World, PyVal.nan ∉ get_values_points w) := by
  refine ⟨?_, ?_, ?_, fun w => rfl, ?_⟩
  · intro n po co
    simp [get_values_points, normalizeNan, pyStrIsNan]
  · intro n co
    simp [get_values_points, normalizeNan, pyStrIsNan]
  · intro n co
    simp [get_values_points, normalizeNan, pyStrIsNan]
  · intro w
    unfold get_values_points
    exact nan_not_mem_map_normalizeNan _

/-- Dispatch on `"LineString"` selects the line extractor and, with no
post-process expression, returns its outcome unchanged. -/
theorem get_values_lineString (w : World) :
    ValueExtractor.get_values "LineString" Option.none w = get_values_lines w := by
  show (get_values_lines w).bind (fun result => Except.ok result) = get_values_lines w
  cases get_values_lines w <;> rfl

/-- Witness for `c2_mixed_refusal`: a two-feature Point/Polygon
collection is classified `"Mixed"` and its extraction fails with the
dispatch error. -/
theorem c2_mixed_refusal_witness :
    get_geometry_types [some "Point", some "Polygon"] = .ok "Mixed" ∧
    ValueExtractor.get_values "Mixed" Option.none ⟨some (), 0, .raises, []⟩ =
      .error .keyError :=
  ⟨c2_mixed_refusal.1 [some "Point", some "Polygon"] "Point" "Polygon"
      (by simp) (by simp) (by decide),
   c2_mixed_refusal.2 Option.none ⟨some (), 0, .raises, []⟩⟩

/-- C1 counterexample: a non-empty LineString set (one geometry) whose
dataset failed to open (`load_dataset` returned `None`).  The claim
promises a result list of length 1, but `get_values_lines` has no
handler for the `AttributeError` raised by `self.dataset.rio`, so
`ValueExtractor.get_values` raises instead of returning any list. -/
theorem c1_length_counterexample :
    ValueExtractor.get_values "LineString" Option.none
      ⟨Option.none, 0, .raises, [.ok (.int 1)]⟩ = .error .attributeError := rfl

/-- C1 (amended): with no post-process expression, Point and Polygon
extraction always return a list whose length is the geometry count
(the point count resp. the number of feature rows), including when
the dataset fails to open; LineString extraction does so provided the
dataset opened and no per-geometry clip raised anything other than
`ClientResponseError`/`NoDataInBounds` — otherwise it raises
(`c1_length_counterexample`).  The hypothesis records that a
successful vectorised point lookup returns one value per point. -/
theorem c1_length_amended (w : World)
    (hpts : ∀ vs, w.pointsOutcome = .ok vs → vs.length = w.nPoints) :
    (∃ l, ValueExtractor.get_values "Point" Option.none w = .ok l ∧ l.length = w.nPoints) ∧
    (∃ l, ValueExtractor.get_values "Polygon" Option.none w = .ok l ∧
        l.length = w.clipOutcomes.length) ∧
    (w.dataset = some () → ClipOutcome.otherError ∉ w.clipOutcomes →
      ∃ l, ValueExtractor.get_values "LineString" Option.none w = .ok l ∧
        l.length = w.clipOutcomes.length) := by
  refine ⟨⟨get_values_points w, rfl, ?_⟩, ⟨get_values_polygons w, rfl, ?_⟩, ?_⟩
  · unfold get_values_points
    rcases w with ⟨ds, n, po, co⟩
    cases ds with
    | none => simp
    | some u =>
      cases po with
      | ok vs => simpa using hpts vs rfl
      | unsupportedIndexes => simp
      | raises => simp
  · unfold get_values_polygons
    simp
  · intro hds hmem
    refine ⟨(w.clipOutcomes.map (polygonRowResult (some ()))).map normalizeNan, ?_, by simp⟩
    rw [get_values_lineString]
    unfold get_values_lines
    rw [hds, linesLoop_ok_of_not_mem () _ hmem]
    rfl

/-- Witness for `c1_length_amended` at a concrete two-geometry
environment (dataset open, mixed per-geometry outcomes). -/
theorem c1_length_amended_witness :
    (∃ l, ValueExtractor.get_values "Point" Option.none
        ⟨some (), 2, .ok [.float 1, .none], [.ok (.int 1), .noDataInBounds]⟩ =
          .ok l ∧ l.length = 2) ∧
    (∃ l, ValueExtractor.get_values "Polygon" Option.none
        ⟨some (), 2, .ok [.float 1, .none], [.ok (.int 1), .noDataInBounds]⟩ =
          .ok l ∧ l.length = 2) ∧
    (∃ l, ValueExtractor.get_values "LineString" Option.none
        ⟨some (), 2, .ok [.float 1, .none], [.ok (.int 1), .noDataInBounds]⟩ =
          .ok l ∧ l.length = 2) :=
  ⟨(c1_length_amended ⟨some (), 2, .ok [.float 1, .none], [.ok (.int 1), .noDataInBounds]⟩
      (fun vs h => by cases h; rfl)).1,
   (c1_length_amended ⟨some (), 2, .ok [.float 1, .none], [.ok (.int 1), .noDataInBounds]⟩
      (fun vs h => by cases h; rfl)).2.1,
   (c1_length_amended ⟨some (), 2, .ok [.float 1, .none], [.ok (.int 1), .noDataInBounds]⟩
      (fun vs h => by cases h; rfl)).2.2 rfl (by decide)⟩

/-- C3 counterexample: a LineString set whose first geometry's clip
raises an exception other than `ClientResponseError`/`NoDataInBounds`.
The claim promises `null` for that geometry and extraction of the
remaining geometry; the code propagates the exception, aborting the
second geometry as well. -/
theorem c3_error_policy_counterexample :
    ValueExtractor.get_values "LineString" Option.none
      ⟨some (), 0, .raises, [.otherError, .ok (.int 5)]⟩ = .error .otherException := rfl

/-- C3 (amended): with an opened dataset, Polygon extraction follows
the full per-geometry policy — each result depends only on its own
row's outcome, with `ClientResponseError ↦ "DataError"`,
`NoDataInBounds ↦ null`, any other exception `↦ null` — so one
geometry's failure never affects the others.  LineString extraction
follows the same per-geometry mapping only as long as no row raises
an unhandled exception; a row with any other exception makes the
whole call raise (aborting the remaining rows), unlike the claim. -/
theorem c3_error_policy_amended (w : World) (hds : w.dataset = some ()) :
    (polygonRowResult (some ()) .clientResponseError = .str "DataError" ∧
     polygonRowResult (some ()) .noDataInBounds = PyVal.none ∧
     polygonRowResult (some ()) .otherError = PyVal.none) ∧
    get_values_polygons w =
      w.clipOutcomes.map (fun o => normalizeNan (polygonRowResult (some ()) o)) ∧
    (ClipOutcome.otherError ∉ w.clipOutcomes →
      get_values_lines w =
        .ok (w.clipOutcomes.map (fun o => normalizeNan (polygonRowResult (some ()) o)))) ∧
    (ClipOutcome.otherError ∈ w.clipOutcomes →
      ∃ e, get_values_lines w = .error e) := by
  refine ⟨⟨rfl, rfl, rfl⟩, ?_, ?_, ?_⟩
  · unfold get_values_polygons
    rw [hds, List.map_map]
    rfl
  · intro h
    unfold get_values_lines
    rw [hds, linesLoop_ok_of_not_mem () _ h]
    show Except.ok ((w.clipOutcomes.map (polygonRowResult (some ()))).map normalizeNan) = _
    rw [List.map_map]
    rfl
  · intro h
    rcases linesLoop_error_of_mem () w.clipOutcomes h with ⟨e, he⟩
    refine ⟨e, ?_⟩
    unfold get_values_lines
    rw [hds, he]
    rfl

/-- Witness for `c3_error_policy_amended`: a three-row environment
exercising all three handled outcomes, for both kinds. -/
theorem c3_error_policy_amended_witness :
    get_values_polygons
        ⟨some (), 0, .raises, [.clientResponseError, .ok (.float 300), .noDataInBounds]⟩ =
      [.str "DataError", .float 300, PyVal.none] ∧
    get_values_lines
        ⟨some (), 0, .raises, [.clientResponseError, .ok (.float 300), .noDataInBounds]⟩ =
      .ok [.str "DataError", .float 300, PyVal.none] := by
  have h := c3_error_policy_amended
    ⟨some (), 0, .raises, [.clientResponseError, .ok (.float 300), .noDataInBounds]⟩ rfl
  refine ⟨?_, ?_⟩
  · rw [h.2.1]
    rfl
  · rw [h.2.2.1 (by decide)]
    rfl

/-- C5 (amended): the evaluator accepts arithmetic over the single
free variable `x` with operators `{+,-,*,/,**}` PLUS bitwise XOR `^`
(the `operators` table also lists `ast.BitXor`), unary negation, and
the single whitelisted call `round`; every construct outside this
extended grammar is rejected: attribute access, calls whose function
is not a name, calls of any name other than `round`, names other than
`x`, binary operators missing from the table (`%`, `//`, …) and unary
operators missing from it (`+e`, `not e`) all fail with an error. -/
theorem c5_grammar_amended :
    (∀ (v : PyVal) (obj : ExprAst) (a : String),
        eval_expr (.attributeAccess obj a) v = .error .typeError) ∧
    (∀ (v : PyVal) (f : ExprAst) (args : List ExprAst),
        (∀ fid, f ≠ .name fid) → eval_expr (.call f args) v = .error .typeError) ∧
    (∀ (v : PyVal) (fid : String) (args : List ExprAst),
        fid ≠ "round" → eval_expr (.call (.name fid) args) v = .error .typeError) ∧
    (∀ (v : PyVal) (id : String), id ≠ "x" → eval_expr (.name id) v = .error .valueError) ∧
    (∀ (v : PyVal) (op : BinOpKind) (l r : ExprAst),
        binOps op = Option.none → eval_expr (.binOp op l r) v = .error .keyError) ∧
    (∀ (v : PyVal) (op : UnaryOpKind) (e : ExprAst),
        unaryOps op = Option.none → eval_expr (.unaryOp op e) v = .error .keyError) ∧
    eval_expr (.binOp .bitXor (.name "x") (.constant (.int 3))) (.int 2) = .ok (.int 1) := by
  refine ⟨fun v obj a => rfl, ?_, ?_, ?_, ?_, ?_, rfl⟩
  · intro v f args h
    cases f <;> first | rfl | exact absurd rfl (h _)
  · intro v fid args h
    show (if fid = "round" then _ else Except.error PyErr.typeError) = Except.error PyErr.typeError
    rw [if_neg h]
  · intro v id h
    show (if id = "x" then _ else Except.error PyErr.valueError) = Except.error PyErr.valueError
    rw [if_neg h]
  · intro v op l r h
    simp [eval_expr, evalAst, h]
  · intro v op e h
    simp [eval_expr, evalAst, h]

/-- Witness for `c5_grammar_amended`: each rejection clause at a
concrete disallowed expression. -/
theorem c5_grammar_amended_witness :
    eval_expr (.call (.attributeAccess (.name "os") "system") [.constant (.str "x")])
        (.int 0) = .error .typeError ∧
    eval_expr (.call (.name "abs") [.name "x"]) (.int 5) = .error .typeError ∧
    eval_expr (.name "y") (.int 0) = .error .valueError ∧
    eval_expr (.binOp .mod (.name "x") (.constant (.int 2))) (.int 5) = .error .keyError ∧
    eval_expr (.unaryOp .uAdd (.name "x")) (.int 5) = .error .keyError :=
  ⟨c5_grammar_amended.2.1 (.int 0) (.attributeAccess (.name "os") "system")
      [.constant (.str "x")] (fun fid h => nomatch h),
   c5_grammar_amended.2.2.1 (.int 5) "abs" [.name "x"] (by decide),
   c5_grammar_amended.2.2.2.1 (.int 0) "y" (by decide),
   c5_grammar_amended.2.2.2.2.1 (.int 5) .mod (.name "x") (.constant (.int 2)) rfl,
   c5_grammar_amended.2.2.2.2.2.1 (.int 5) .uAdd (.name "x") rfl⟩

/-- Bind of an `ok` value steps to the continuation. -/
theorem except_ok_bind {α β : Type} (a : α) (f : α → Except PyErr β) :
    (Except.ok a >>= f) = f a := rfl

/-- Bind of an `error` short-circuits. -/
theorem except_error_bind {α β : Type} (e : PyErr) (f : α → Except PyErr β) :
    ((Except.error e : Except PyErr α) >>= f) = .error e := rfl

/-- Is this value a Python number (`int`/`float`)? -/
def isNumeric : PyVal → Bool
  | .int _ => true
  | .float _ => true
  | _ => false

/-- Every entry of a `statEntries` batch is tagged `statistic` and
keyed by its own stat name. -/
theorem statEntries_tagged (a b c d : Option ℝ) (p : String × StatEntry)
    (hp : p ∈ statEntries a b c d) : p.2.type = "statistic" ∧ p.2.key = p.1 := by
  simp only [statEntries, List.mem_cons, List.not_mem_nil, or_false] at hp
  rcases hp with rfl | rfl | rfl | rfl <;> exact ⟨rfl, rfl⟩

/-- Comparison never raises between two numbers. -/
theorem pyLtE_numeric_ok (a b : PyVal) (ha : isNumeric a = true) (hb : isNumeric b = true) :
    ∃ t, pyLtE a b = .ok t := by
  cases a with
  | int za =>
    cases b with
    | int zb => exact ⟨_, rfl⟩
    | float qb => exact ⟨_, rfl⟩
    | none => simp [isNumeric] at hb
    | nan => simp [isNumeric] at hb
    | str s => simp [isNumeric] at hb
  | float qa =>
    cases b with
    | int zb => exact ⟨_, rfl⟩
    | float qb => exact ⟨_, rfl⟩
    | none => simp [isNumeric] at hb
    | nan => simp [isNumeric] at hb
    | str s => simp [isNumeric] at hb
  | none => simp [isNumeric] at ha
  | nan => simp [isNumeric] at ha
  | str s => simp [isNumeric] at ha

/-- The `min` fold completes on an all-numeric list and returns a
number. -/
theorem pyIterMin_numeric_ok :
    ∀ (l : List PyVal) (cur : PyVal), isNumeric cur = true →
      (∀ v ∈ l, isNumeric v = true) →
      ∃ m, pyIterMin cur l = .ok m ∧ isNumeric m = true := by
  intro l
  induction l with
  | nil => exact fun cur hc _ => ⟨cur, rfl, hc⟩
  | cons x rest ih =>
    intro cur hc hl
    have hx : isNumeric x = true := hl x (List.mem_cons_self _ _)
    rcases pyLtE_numeric_ok x cur hx hc with ⟨t, ht⟩
    rcases ih (if t then x else cur) (by cases t <;> simp [hx, hc])
        (fun v hv => hl v (List.mem_cons_of_mem _ hv)) with ⟨m, hm, hnm⟩
    refine ⟨m, ?_, hnm⟩
    simp only [pyIterMin, ht, except_ok_bind]
    exact hm

/-- The `max` fold completes on an all-numeric list and returns a
number. -/
theorem pyIterMax_numeric_ok :
    ∀ (l : List PyVal) (cur : PyVal), isNumeric cur = true →
      (∀ v ∈ l, isNumeric v = true) →
      ∃ m, pyIterMax cur l = .ok m ∧ isNumeric m = true := by
  intro l
  induction l with
  | nil => exact fun cur hc _ => ⟨cur, rfl, hc⟩
  | cons x rest ih =>
    intro cur hc hl
    have hx : isNumeric x = true := hl x (List.mem_cons_self _ _)
    rcases pyLtE_numeric_ok cur x hc hx with ⟨t, ht⟩
    rcases ih (if t then x else cur) (by cases t <;> simp [hx, hc])
        (fun v hv => hl v (List.mem_cons_of_mem _ hv)) with ⟨m, hm, hnm⟩
    refine ⟨m, ?_, hnm⟩
    simp only [pyIterMax, ht, except_ok_bind]
    exact hm

/-- `float(...)` succeeds on a number. -/
theorem pyFloatOfVal_numeric_ok (v : PyVal) (h : isNumeric v = true) :
    ∃ q, pyFloatOfVal v = .ok q := by
  cases v with
  | int z => exact ⟨_, rfl⟩
  | float q => exact ⟨_, rfl⟩
  | none => simp [isNumeric] at h
  | nan => simp [isNumeric] at h
  | str s => simp [isNumeric] at h

/-- Numeric coercion of an all-numeric list succeeds. -/
theorem numListOfVals_ok :
    ∀ l : List PyVal, (∀ v ∈ l, isNumeric v = true) →
      ∃ qs, numListOfVals l = .ok qs := by
  intro l
  induction l with
  | nil => exact fun _ => ⟨[], rfl⟩
  | cons v rest ih =>
    intro hl
    have hv : isNumeric v = true := hl v (List.mem_cons_self _ _)
    have hq : ∃ q, pyNumericVal v = .ok q := by
      cases v with
      | int z => exact ⟨_, rfl⟩
      | float q => exact ⟨_, rfl⟩
      | none => simp [isNumeric] at hv
      | nan => simp [isNumeric] at hv
      | str s => simp [isNumeric] at hv
    rcases hq with ⟨q, hq⟩
    rcases ih (fun w hw => hl w (List.mem_cons_of_mem _ hw)) with ⟨qs, hqs⟩
    refine ⟨q :: qs, ?_⟩
    simp only [numListOfVals, hq, hqs, except_ok_bind]

/-- C7 counterexample: `returned_values` can contain the `"DataError"`
string sentinel stored by a failed polygon/line clip.  It is non-null,
so the summary pass picks it up, and then raises instead of computing
and inserting statistics: `float(min(["DataError"]))` raises
`ValueError`, and `min([2.0, "DataError"])` raises `TypeError` on the
string/number comparison. -/
theorem c7_summary_statistics_counterexample :
    add_summary_statistics_feature [("x_average", PyVal.str "DataError")] =
      .error .valueError ∧
    add_summary_statistics_feature
        [("a_average", PyVal.float 2), ("x_average", PyVal.str "DataError")] =
      .error .typeError := by
  constructor <;> rfl

/-- C7 (amended): whenever every stored value is numeric or null, the
summary pass succeeds: it inserts exactly the four entries `MINIMUM`,
`MAXIMUM`, `MEAN`, `STANDARD_DEVIATION`, each tagged
`type: "statistic"` and keyed by its stat name; on `{a: 2, b: 4,
c: 6}` they are `2`, `6`, `4` and `√(8/3)` (the population standard
deviation of `np.std`), and on an all-null map all four are null.  A
non-null non-numeric value — the `"DataError"` sentinel — instead
makes the pass raise (`c7_summary_statistics_counterexample`). -/
theorem c7_summary_statistics :
    (∀ (rv : List (String × PyVal)) (out : List (String × StatEntry)),
        add_summary_statistics_feature rv = .ok out →
        ∀ p ∈ out, p.2.type = "statistic" ∧ p.2.key = p.1) ∧
    (∀ rv : List (String × PyVal),
        (∀ v ∈ rv.map Prod.snd, isNumericOrNone v = true) →
        ∃ out, add_summary_statistics_feature rv = .ok out ∧
          out.map Prod.fst = ["MINIMUM", "MAXIMUM", "MEAN", "STANDARD_DEVIATION"]) ∧
    add_summary_statistics_feature [("a", .int 2), ("b", .int 4), ("c", .int 6)] =
      .ok [("MINIMUM", ⟨some 2, "statistic", "MINIMUM"⟩),
           ("MAXIMUM", ⟨some 6, "statistic", "MAXIMUM"⟩),
           ("MEAN", ⟨some 4, "statistic", "MEAN"⟩),
           ("STANDARD_DEVIATION", ⟨some (Real.sqrt (8 / 3)), "statistic",
             "STANDARD_DEVIATION"⟩)] ∧
    add_summary_statistics_feature [("a", PyVal.none), ("b", PyVal.none)] =
      .ok [("MINIMUM", ⟨Option.none, "statistic", "MINIMUM"⟩),
           ("MAXIMUM", ⟨Option.none, "statistic", "MAXIMUM"⟩),
           ("MEAN", ⟨Option.none, "statistic", "MEAN"⟩),
           ("STANDARD_DEVIATION", ⟨Option.none, "statistic", "STANDARD_DEVIATION"⟩)] := by
  refine ⟨?_, ?_, ?_, ?_⟩
  · intro rv out h p hp
    simp only [add_summary_statistics_feature] at h
    by_cases hv : (rv.map Prod.snd).filter (fun v => v ≠ PyVal.none) ≠ []
    · rw [if_pos hv] at h
      cases h1 : pyListMinE ((rv.map Prod.snd).filter (fun v => v ≠ PyVal.none)) with
      | error e => rw [h1, except_error_bind] at h; cases h
      | ok minv =>
        rw [h1, except_ok_bind] at h
        cases h2 : pyFloatOfVal minv with
        | error e => rw [h2, except_error_bind] at h; cases h
        | ok minq =>
          rw [h2, except_ok_bind] at h
          cases h3 : pyListMaxE ((rv.map Prod.snd).filter (fun v => v ≠ PyVal.none)) with
          | error e => rw [h3, except_error_bind] at h; cases h
          | ok maxv =>
            rw [h3, except_ok_bind] at h
            cases h4 : pyFloatOfVal maxv with
            | error e => rw [h4, except_error_bind] at h; cases h
            | ok maxq =>
              rw [h4, except_ok_bind] at h
              cases h5 : numListOfVals ((rv.map Prod.snd).filter (fun v => v ≠ PyVal.none)) with
              | error e => rw [h5, except_error_bind] at h; cases h
              | ok qs =>
                rw [h5, except_ok_bind] at h
                cases h
                exact statEntries_tagged _ _ _ _ p hp
    · rw [if_neg hv] at h
      cases h
      exact statEntries_tagged _ _ _ _ p hp
  · intro rv hnum
    by_cases hv : (rv.map Prod.snd).filter (fun v => v ≠ PyVal.none) ≠ []
    · have hvals : ∀ v ∈ (rv.map Prod.snd).filter (fun v => v ≠ PyVal.none),
          isNumeric v = true := by
        intro v hvm
        have hmem := List.mem_of_mem_filter hvm
        have hne : v ≠ PyVal.none := by
          have := List.of_mem_filter hvm
          simpa using this
        have := hnum v hmem
        cases v with
        | none => exact absurd rfl hne
        | int z => rfl
        | float q => rfl
        | nan => simp [isNumericOrNone] at this
        | str s => simp [isNumericOrNone] at this
      cases hlist : (rv.map Prod.snd).filter (fun v => v ≠ PyVal.none) with
      | nil => exact absurd hlist hv
      | cons v0 vrest =>
        have hvals' : ∀ v ∈ v0 :: vrest, isNumeric v = true := by
          rw [← hlist]; exact hvals
        rcases pyIterMin_numeric_ok vrest v0 (hvals' v0 (List.mem_cons_self _ _))
            (fun v hv2 => hvals' v (List.mem_cons_of_mem _ hv2)) with ⟨minv, hmin, hminn⟩
        rcases pyFloatOfVal_numeric_ok minv hminn with ⟨minq, hminq⟩
        rcases pyIterMax_numeric_ok vrest v0 (hvals' v0 (List.mem_cons_self _ _))
            (fun v hv2 => hvals' v (List.mem_cons_of_mem _ hv2)) with ⟨maxv, hmax, hmaxn⟩
        rcases pyFloatOfVal_numeric_ok maxv hmaxn with ⟨maxq, hmaxq⟩
        rcases numListOfVals_ok (v0 :: vrest) hvals' with ⟨qs, hqs⟩
        refine ⟨statEntries (some (minq : ℝ)) (some (maxq : ℝ))
            (some ((npMean qs : ℚ) : ℝ)) (some (npStd qs)), ?_, by simp [statEntries]⟩
        simp only [add_summary_statistics_feature, hlist]
        rw [if_pos (by simp)]
        simp only [pyListMinE, pyListMaxE, hmin, hminq, hmax, hmaxq, hqs,
          except_ok_bind]
    · rw [not_not] at hv
      refine ⟨statEntries Option.none Option.none Option.none Option.none, ?_,
        by simp [statEntries]⟩
      simp only [add_summary_statistics_feature, hv]
      rfl
  · show Except.ok (statEntries (some (((2 : ℤ) : ℚ) : ℝ)) (some (((6 : ℤ) : ℚ) : ℝ))
        (some ((npMean [((2 : ℤ) : ℚ), ((4 : ℤ) : ℚ), ((6 : ℤ) : ℚ)] : ℚ) : ℝ))
        (some (npStd [((2 : ℤ) : ℚ), ((4 : ℤ) : ℚ), ((6 : ℤ) : ℚ)]))) = _
    have hmean : npMean [((2 : ℤ) : ℚ), ((4 : ℤ) : ℚ), ((6 : ℤ) : ℚ)] = 4 := by
      norm_num [npMean]
    have hvar : npVariance [((2 : ℤ) : ℚ), ((4 : ℤ) : ℚ), ((6 : ℤ) : ℚ)] = 8 / 3 := by
      norm_num [npVariance, npMean]
    unfold npStd
    rw [hmean, hvar]
    simp only [statEntries, Except.ok.injEq, List.cons.injEq, Prod.mk.injEq,
      StatEntry.mk.injEq, Option.some.injEq, and_true, true_and]
    norm_num
  · rfl

/-- Witness for `c7_summary_statistics`: the all-numeric map
`{a: 2, b: 4, c: 6}` satisfies the numeric hypothesis, the pass
succeeds on it with the four stat names, and its `MINIMUM` entry is
tagged `statistic` and keyed by its stat name. -/
theorem c7_summary_statistics_witness :
    (∀ v ∈ ([("a", PyVal.int 2), ("b", PyVal.int 4), ("c", PyVal.int 6)].map Prod.snd),
        isNumericOrNone v = true) ∧
    (∃ out, add_summary_statistics_feature
          [("a", PyVal.int 2), ("b", PyVal.int 4), ("c", PyVal.int 6)] = .ok out ∧
        out.map Prod.fst = ["MINIMUM", "MAXIMUM", "MEAN", "STANDARD_DEVIATION"]) ∧
    (("MINIMUM", (⟨some 2, "statistic", "MINIMUM"⟩ : StatEntry)).2.type = "statistic" ∧
     ("MINIMUM", (⟨some 2, "statistic", "MINIMUM"⟩ : StatEntry)).2.key = "MINIMUM") := by
  have hnum : ∀ v ∈ ([("a", PyVal.int 2), ("b", PyVal.int 4),
      ("c", PyVal.int 6)].map Prod.snd), isNumericOrNone v = true := by
    intro v hv
    simp only [List.map_cons, List.map_nil, List.mem_cons, List.not_mem_nil,
      or_false] at hv
    rcases hv with rfl | rfl | rfl <;> rfl
  exact ⟨hnum, c7_summary_statistics.2.1 _ hnum,
    c7_summary_statistics.1 _ _ c7_summary_statistics.2.2.1 _ (List.mem_cons_self _ _)⟩

/-- If `find?` returns a hit, the list splits at the FIRST hit: every
earlier element fails the predicate. -/
theorem find?_eq_some_split {α : Type} (p : α → Bool) :
    ∀ (l : List α) (a : α), l.find? p = some a →
      ∃ l1 l2, l = l1 ++ a :: l2 ∧ (∀ x ∈ l1, p x = false) ∧ p a = true := by
  intro l
  induction l with
  | nil => intro a h; cases h
  | cons x xs ih =>
    intro a h
    by_cases hx : p x = true
    · rw [List.find?_cons_of_pos _ hx] at h
      cases h
      exact ⟨[], xs, rfl, by simp, hx⟩
    · rw [List.find?_cons_of_neg _ (by simpa using hx)] at h
      rcases ih a h with ⟨l1, l2, rfl, h1, h2⟩
      refine ⟨x :: l1, l2, rfl, ?_, h2⟩
      intro y hy
      rcases List.mem_cons.mp hy with rfl | hy
      · simpa using hx
      · exact h1 y hy

/-- C9 counterexample: the allowlist in the code is
`[".tif", ".tiff", ".json"]` — `.nc` is NOT in it, so an item whose
only asset is a NetCDF file resolves to no asset; and
`get_asset_data_list` appends that `None` to the resolved batch
instead of dropping the item: a two-item batch with one unmatched
item still has two entries, the first being `None`. -/
theorem c9_resolver_counterexample :
    get_asset_details ⟨["https://example.com/data.nc"], some "2024-02-01T00:00:00Z",
        some "c"⟩ = Option.none ∧
    get_asset_data_list
        [⟨["https://example.com/data.nc"], some "2024-02-01T00:00:00Z", some "c"⟩,
         ⟨["https://example.com/a.tif"], some "2024-02-01T00:00:00Z", some "c"⟩] =
      [Option.none,
       some ⟨"https://example.com/a.tif", some "2024-02-01T00:00:00Z", "a", some "c"⟩] := by
  constructor <;> rfl

/-- C9 (amended): the resolver emits, per item, a descriptor for the
FIRST declared asset whose extension is in `{.tif, .tiff, .json}`
(carrying the item's datetime/unit and the dashed stem as source file
name); an item with none yields `None`, kept in place — the resolved
batch always has exactly one entry per item and resolution continues
past unmatched items. -/
theorem c9_resolver_amended :
    (∀ items : List StacItemModel, (get_asset_data_list items).length = items.length) ∧
    (∀ it : StacItemModel,
        get_asset_details it = Option.none ↔
          ∀ url ∈ it.assets, pathSuffix url ∉ file_types) ∧
    (∀ (it : StacItemModel) (d : DatasetDetails), get_asset_details it = some d →
        pathSuffix d.url ∈ file_types ∧ d.datetime = it.datetime ∧ d.unit = it.unit ∧
        d.source_file_name = sourceFileName d.url ∧
        ∃ l1 l2, it.assets = l1 ++ d.url :: l2 ∧
          ∀ u ∈ l1, pathSuffix u ∉ file_types) := by
  refine ⟨fun items => List.length_map _ _, ?_, ?_⟩
  · intro it
    constructor
    · intro h url hmem hsuf
      rcases Option.map_eq_none'.mp h with hfind
      have := List.find?_eq_none.mp hfind url hmem
      simp [hsuf] at this
    · intro h
      apply Option.map_eq_none'.mpr
      apply List.find?_eq_none.mpr
      intro url hmem
      simpa using h url hmem
  · intro it d h
    rcases Option.map_eq_some'.mp h with ⟨url, hfind, rfl⟩
    rcases find?_eq_some_split _ _ _ hfind with ⟨l1, l2, hsplit, h1, h2⟩
    refine ⟨by simpa using h2, rfl, rfl, rfl, l1, l2, hsplit, ?_⟩
    intro u hu hsuf
    have := h1 u hu
    simp [hsuf] at this

/-- Witness for `c9_resolver_amended`: a concrete item whose second
asset is the first allowlisted one. -/
theorem c9_resolver_amended_witness :
    pathSuffix "https://example.com/b.json" ∈ file_types ∧
    (some "2024-02-01T00:00:00Z" : Option String) = some "2024-02-01T00:00:00Z" ∧
    (some "c" : Option String) = some "c" ∧
    "b" = sourceFileName "https://example.com/b.json" ∧
    ∃ l1 l2, ["https://example.com/x.zstd", "https://example.com/b.json"] =
        l1 ++ "https://example.com/b.json" :: l2 ∧
      ∀ u ∈ l1, pathSuffix u ∉ file_types :=
  c9_resolver_amended.2.2
    ⟨["https://example.com/x.zstd", "https://example.com/b.json"],
     some "2024-02-01T00:00:00Z", some "c"⟩
    ⟨"https://example.com/b.json", some "2024-02-01T00:00:00Z", "b", some "c"⟩
    (by rfl)

/-- C8 (code bug): bounded mode derives the min/max lists exactly as
the claim says — null per geometry when either side is null — but the
writes themselves can never happen in this revision:
`_update_asset_properties` reads `dataset_details.output_name`
(get_values.py line 127) on the `stac_parsing.DatasetDetails` the
pipeline wires in (import at get_values.py line 15; built by
`get_asset_data_list`), which has no such field, so the first
per-feature write raises `AttributeError` (the parallel
`data_models.DatasetDetails` with the timestamp-derived `output_name`
is never constructed here).  Concretely: the null-propagation of the
derivation holds; the attribute read fails; a one-point bounded run
errors with `AttributeError`; and a zero-geometry run — whose write
loop body never executes — completes with the fixed
`lst`/`lst_uncertainty` pair and empty write batches, locating the
failure precisely at the per-feature write. -/
theorem c8_min_max_write_bug :
    boundCombine pySub ([PyVal.none].zip [PyVal.float 1]) = .ok [PyVal.none] ∧
    boundCombine pyAdd ([PyVal.none].zip [PyVal.float 1]) = .ok [PyVal.none] ∧
    stacDetails_output_name
        ⟨"https://example.com/a.tif", some "2024-02-01T00:00:00Z", "a", some "c"⟩ =
      .error .attributeError ∧
    get_min_max_values_for_dataset
        ⟨"https://example.com/a.tif", some "2024-02-01T00:00:00Z", "a", some "c"⟩ "Point"
        ⟨some (), 1, .ok [.none], []⟩ ⟨some (), 1, .ok [.float 1], []⟩ =
      .error .attributeError ∧
    get_min_max_values_for_dataset
        ⟨"https://example.com/a.tif", some "2024-02-01T00:00:00Z", "a", some "c"⟩ "Point"
        ⟨some (), 0, .ok [], []⟩ ⟨some (), 0, .ok [], []⟩ =
      .ok ⟨"lst", "lst_uncertainty", [], []⟩ :=
  ⟨rfl, rfl, rfl, rfl, rfl⟩

end LstWorkflow
